import Mathlib

/-!
Verification of the discovery-and-transfer protocol implemented in
`Server.py` and `Client.py`.  Datagrams are modelled as lists of byte
values (`List Nat`, each entry < 256); the fixed-width network-byte-order
fields produced by `struct.pack` / consumed by `struct.unpack` are
modelled by big-endian encoding and decoding functions.
-/

namespace Network

/-! Protocol constants shared by `Server.py` and `Client.py`. -/

def MAGIC_COOKIE : Nat := 0xabcddcba

def OFFER_MESSAGE_TYPE : Nat := 0x2

def REQUEST_MESSAGE_TYPE : Nat := 0x3

def PAYLOAD_MESSAGE_TYPE : Nat := 0x4

def UDP_PORT : Nat := 14117

def TCP_PORT : Nat := 65432

def BUFFER_SIZE : Nat := 1024

/-- Big-endian encoding of `n` into `w` bytes, as `struct.pack` lays out
the network-byte-order fixed-width fields `!I` (w = 4), `!H` (w = 2) and
`!Q` (w = 8). -/
def packBE : Nat → Nat → List Nat
  | 0, _ => []
  | w + 1, n => packBE w (n / 256) ++ [n % 256]

/-- Big-endian decoding of a byte list, as `struct.unpack` reads a
network-byte-order field. -/
def decodeBE (l : List Nat) : Nat :=
  l.foldl (fun a b => a * 256 + b) 0

theorem packBE_length (w n : Nat) : (packBE w n).length = w := by
  induction w generalizing n with
  | zero => rfl
  | succ w ih => simp [packBE, ih]

theorem decodeBE_packBE (w n : Nat) : decodeBE (packBE w n) = n % 256 ^ w := by
  induction w generalizing n with
  | zero => simp [packBE, decodeBE, Nat.mod_one]
  | succ w ih =>
    have step : decodeBE (packBE w (n / 256) ++ [n % 256]) =
        decodeBE (packBE w (n / 256)) * 256 + n % 256 := by
      simp [decodeBE, List.foldl_append]
    calc decodeBE (packBE (w + 1) n)
        = decodeBE (packBE w (n / 256)) * 256 + n % 256 := by rw [packBE]; exact step
      _ = (n / 256 % 256 ^ w) * 256 + n % 256 := by rw [ih]
      _ = n % 256 + 256 * (n / 256 % 256 ^ w) := by ring
      _ = n % (256 * 256 ^ w) := (Nat.mod_mul).symm
      _ = n % 256 ^ (w + 1) := by rw [pow_succ, mul_comm]

theorem decodeBE_packBE_of_lt {w n : Nat} (h : n < 256 ^ w) :
    decodeBE (packBE w n) = n := by
  rw [decodeBE_packBE, Nat.mod_eq_of_lt h]

/-! ## Offer messages

`send_offers` (Server.py) builds the offer with
`struct.pack('!IBHH', MAGIC_COOKIE, OFFER_MESSAGE_TYPE, UDP_PORT, TCP_PORT)`;
`listen_for_offers` (Client.py) reads it back with
`struct.unpack('!IBHH', message[:9])`. -/

/-- The 9-byte offer datagram built by the server's `send_offers` for a
given pair of advertised ports. -/
def offer_message (udp_port tcp_port : Nat) : List Nat :=
  packBE 4 MAGIC_COOKIE ++ [OFFER_MESSAGE_TYPE] ++ packBE 2 udp_port ++ packBE 2 tcp_port

/-- Field extraction performed by `struct.unpack('!IBHH', message[:9])` in
the client's `listen_for_offers`: (cookie, message_type, udp_port, tcp_port). -/
def unpackOffer (msg : List Nat) : Nat × Nat × Nat × Nat :=
  (decodeBE (msg.take 4),
   decodeBE ((msg.drop 4).take 1),
   decodeBE ((msg.drop 5).take 2),
   decodeBE ((msg.drop 7).take 2))

/-- One iteration of the client's `listen_for_offers` receive loop on a
single datagram: return the advertised `(tcp_port, udp_port)` when the
datagram is at least 9 bytes and carries the right cookie and type,
otherwise keep listening (`none`). -/
def listen_for_offers_step (msg : List Nat) : Option (Nat × Nat) :=
  if 9 ≤ msg.length then
    if (unpackOffer msg).1 = MAGIC_COOKIE ∧ (unpackOffer msg).2.1 = OFFER_MESSAGE_TYPE then
      some ((unpackOffer msg).2.2.2, (unpackOffer msg).2.2.1)
    else none
  else none

/-- Claim C5: encoding an offer message for any pair of 16-bit port values
in the fixed 9-byte network-byte-order layout and then decoding it as the
discovery listener does yields back exactly the `udp_port` and `tcp_port`
that were encoded. -/
theorem offer_roundtrip (udp_port tcp_port : Nat)
    (hu : udp_port < 2 ^ 16) (ht : tcp_port < 2 ^ 16) :
    unpackOffer (offer_message udp_port tcp_port) =
      (MAGIC_COOKIE, OFFER_MESSAGE_TYPE, udp_port, tcp_port) := by
  have h4 : (packBE 4 MAGIC_COOKIE).length = 4 := packBE_length 4 _
  have hu2 : (packBE 2 udp_port).length = 2 := packBE_length 2 _
  unfold offer_message unpackOffer
  rw [List.append_assoc, List.append_assoc]
  have htake : ((packBE 4 MAGIC_COOKIE) ++
      ([OFFER_MESSAGE_TYPE] ++ (packBE 2 udp_port ++ packBE 2 tcp_port))).take 4 =
      packBE 4 MAGIC_COOKIE := List.take_left' h4
  have hdrop4 : ((packBE 4 MAGIC_COOKIE) ++
      ([OFFER_MESSAGE_TYPE] ++ (packBE 2 udp_port ++ packBE 2 tcp_port))).drop 4 =
      [OFFER_MESSAGE_TYPE] ++ (packBE 2 udp_port ++ packBE 2 tcp_port) :=
    List.drop_left' h4
  have hdrop5 : ((packBE 4 MAGIC_COOKIE) ++
      ([OFFER_MESSAGE_TYPE] ++ (packBE 2 udp_port ++ packBE 2 tcp_port))).drop 5 =
      packBE 2 udp_port ++ packBE 2 tcp_port := by
    have := List.drop_drop 1 4 ((packBE 4 MAGIC_COOKIE) ++
      ([OFFER_MESSAGE_TYPE] ++ (packBE 2 udp_port ++ packBE 2 tcp_port)))
    rw [← this, hdrop4]
    rfl
  have hdrop7 : ((packBE 4 MAGIC_COOKIE) ++
      ([OFFER_MESSAGE_TYPE] ++ (packBE 2 udp_port ++ packBE 2 tcp_port))).drop 7 =
      packBE 2 tcp_port := by
    have := List.drop_drop 2 5 ((packBE 4 MAGIC_COOKIE) ++
      ([OFFER_MESSAGE_TYPE] ++ (packBE 2 udp_port ++ packBE 2 tcp_port)))
    rw [← this, hdrop5, List.drop_left' hu2]
  rw [htake, hdrop4, hdrop5, hdrop7]
  have hmagic : decodeBE (packBE 4 MAGIC_COOKIE) = MAGIC_COOKIE :=
    decodeBE_packBE_of_lt (by norm_num [MAGIC_COOKIE])
  have htype : decodeBE (([OFFER_MESSAGE_TYPE] ++
      (packBE 2 udp_port ++ packBE 2 tcp_port)).take 1) = OFFER_MESSAGE_TYPE := rfl
  have hup : decodeBE ((packBE 2 udp_port ++ packBE 2 tcp_port).take 2) = udp_port := by
    rw [List.take_left' hu2]
    exact decodeBE_packBE_of_lt (by exact_mod_cast hu)
  have htp : decodeBE ((packBE 2 tcp_port).take 2) = tcp_port := by
    rw [List.take_of_length_le (by rw [packBE_length])]
    exact decodeBE_packBE_of_lt (by exact_mod_cast ht)
  rw [hmagic, htype, hup, htp]

/-- Witness for C5: the roundtrip at the concrete ports the server
actually advertises. -/
theorem offer_roundtrip_witness :
    14117 < 2 ^ 16 ∧ 65432 < 2 ^ 16 ∧
    unpackOffer (offer_message 14117 65432) =
      (MAGIC_COOKIE, OFFER_MESSAGE_TYPE, 14117, 65432) :=
  ⟨by norm_num, by norm_num, offer_roundtrip 14117 65432 (by norm_num) (by norm_num)⟩

/-- Claim C6: the discovery listener returns the advertised ports exactly
when the datagram is at least 9 bytes long and its decoded cookie and type
match `MAGIC_COOKIE` and `OFFER_MESSAGE_TYPE`; every other datagram —
including one of correct length but wrong cookie — is discarded (`none`),
so listening continues rather than failing. -/
theorem listen_for_offers_step_accepts (msg : List Nat) (p : Nat × Nat) :
    listen_for_offers_step msg = some p ↔
      9 ≤ msg.length ∧ (unpackOffer msg).1 = MAGIC_COOKIE ∧
      (unpackOffer msg).2.1 = OFFER_MESSAGE_TYPE ∧
      p = ((unpackOffer msg).2.2.2, (unpackOffer msg).2.2.1) := by
  unfold listen_for_offers_step
  split_ifs with hlen hok
  · constructor
    · intro h
      exact ⟨hlen, hok.1, hok.2, (Option.some_inj.mp h).symm⟩
    · intro h
      rw [h.2.2.2]
  · constructor
    · intro h
      exact h.elim
    · intro h
      exact absurd ⟨h.2.1, h.2.2.1⟩ hok
  · constructor
    · intro h
      exact h.elim
    · intro h
      exact absurd h.1 hlen

/-- Witness for C6: a concrete valid offer datagram is accepted with the
advertised ports, via the characterization applied at that datagram. -/
theorem listen_for_offers_step_accepts_witness :
    listen_for_offers_step (offer_message 14117 65432) = some (65432, 14117) := by
  refine (listen_for_offers_step_accepts (offer_message 14117 65432) (65432, 14117)).mpr ?_
  refine ⟨by decide, ?_, ?_, ?_⟩ <;> decide

/-! ## Unreliable payload segments

`handle_udp_client` (Server.py) computes `total_segments = file_size //
BUFFER_SIZE` and for each `segment_num` in `range(total_segments)` sends
`struct.pack('!IBQQ', MAGIC_COOKIE, PAYLOAD_MESSAGE_TYPE, total_segments,
segment_num)` padded with `b'X'` up to `BUFFER_SIZE` bytes. -/

/-- The 21-byte payload header packed by the server's `handle_udp_client`. -/
def payload_header (total_segments segment_num : Nat) : List Nat :=
  packBE 4 MAGIC_COOKIE ++ [PAYLOAD_MESSAGE_TYPE] ++
    packBE 8 total_segments ++ packBE 8 segment_num

/-- One payload datagram: the header padded with filler bytes `b'X'`
(0x58) up to `BUFFER_SIZE` bytes. -/
def payload_datagram (total_segments segment_num : Nat) : List Nat :=
  payload_header total_segments segment_num ++
    List.replicate (BUFFER_SIZE - (payload_header total_segments segment_num).length) 0x58

/-- The sequence of datagrams the server's `handle_udp_client` hands to
the transport for a requested `file_size`, in send order. -/
def handle_udp_client (file_size : Nat) : List (List Nat) :=
  (List.range (file_size / BUFFER_SIZE)).map
    (fun segment_num => payload_datagram (file_size / BUFFER_SIZE) segment_num)

theorem payload_header_length (t s : Nat) : (payload_header t s).length = 21 := by
  unfold payload_header
  rw [List.length_append, List.length_append, List.length_append,
    packBE_length, packBE_length, packBE_length]
  rfl

theorem payload_datagram_length (t s : Nat) : (payload_datagram t s).length = 1024 := by
  unfold payload_datagram
  rw [List.length_append, List.length_replicate, payload_header_length]
  rfl

theorem handle_udp_client_getD {S i : Nat} (hi : i < S / BUFFER_SIZE) :
    (handle_udp_client S).getD i [] = payload_datagram (S / BUFFER_SIZE) i := by
  unfold handle_udp_client
  rw [List.getD_eq_getElem?_getD, List.getElem?_map, List.getElem?_range hi]
  rfl

theorem payload_datagram_fields {t s : Nat} (ht : t < 2 ^ 64) (hs : s < 2 ^ 64) :
    decodeBE ((payload_datagram t s).take 4) = MAGIC_COOKIE ∧
    decodeBE (((payload_datagram t s).drop 4).take 1) = PAYLOAD_MESSAGE_TYPE ∧
    decodeBE (((payload_datagram t s).drop 5).take 8) = t ∧
    decodeBE (((payload_datagram t s).drop 13).take 8) = s ∧
    (payload_datagram t s).drop 21 = List.replicate 1003 0x58 := by
  have h4 : (packBE 4 MAGIC_COOKIE).length = 4 := packBE_length 4 _
  have h8t : (packBE 8 t).length = 8 := packBE_length 8 _
  have h8s : (packBE 8 s).length = 8 := packBE_length 8 _
  have hpad : BUFFER_SIZE - (payload_header t s).length = 1003 := by
    rw [payload_header_length]
    rfl
  have hshape : payload_datagram t s = packBE 4 MAGIC_COOKIE ++
      ([PAYLOAD_MESSAGE_TYPE] ++ (packBE 8 t ++ (packBE 8 s ++
        List.replicate 1003 0x58))) := by
    unfold payload_datagram
    rw [hpad]
    unfold payload_header
    simp only [List.append_assoc]
  rw [hshape]
  have hdrop4 : (packBE 4 MAGIC_COOKIE ++
      ([PAYLOAD_MESSAGE_TYPE] ++ (packBE 8 t ++ (packBE 8 s ++
        List.replicate 1003 0x58)))).drop 4 =
      [PAYLOAD_MESSAGE_TYPE] ++ (packBE 8 t ++ (packBE 8 s ++
        List.replicate 1003 0x58)) := List.drop_left' h4
  have hdrop5 : (packBE 4 MAGIC_COOKIE ++
      ([PAYLOAD_MESSAGE_TYPE] ++ (packBE 8 t ++ (packBE 8 s ++
        List.replicate 1003 0x58)))).drop 5 =
      packBE 8 t ++ (packBE 8 s ++ List.replicate 1003 0x58) := by
    have := List.drop_drop 1 4 (packBE 4 MAGIC_COOKIE ++
      ([PAYLOAD_MESSAGE_TYPE] ++ (packBE 8 t ++ (packBE 8 s ++
        List.replicate 1003 0x58))))
    rw [← this, hdrop4]
    rfl
  have hdrop13 : (packBE 4 MAGIC_COOKIE ++
      ([PAYLOAD_MESSAGE_TYPE] ++ (packBE 8 t ++ (packBE 8 s ++
        List.replicate 1003 0x58)))).drop 13 =
      packBE 8 s ++ List.replicate 1003 0x58 := by
    have := List.drop_drop 8 5 (packBE 4 MAGIC_COOKIE ++
      ([PAYLOAD_MESSAGE_TYPE] ++ (packBE 8 t ++ (packBE 8 s ++
        List.replicate 1003 0x58))))
    rw [← this, hdrop5, List.drop_left' h8t]
  have hdrop21 : (packBE 4 MAGIC_COOKIE ++
      ([PAYLOAD_MESSAGE_TYPE] ++ (packBE 8 t ++ (packBE 8 s ++
        List.replicate 1003 0x58)))).drop 21 =
      List.replicate 1003 0x58 := by
    have := List.drop_drop 8 13 (packBE 4 MAGIC_COOKIE ++
      ([PAYLOAD_MESSAGE_TYPE] ++ (packBE 8 t ++ (packBE 8 s ++
        List.replicate 1003 0x58))))
    rw [← this, hdrop13, List.drop_left' h8s]
  refine ⟨?_, ?_, ?_, ?_, hdrop21⟩
  · rw [List.take_left' h4]
    exact decodeBE_packBE_of_lt (by norm_num [MAGIC_COOKIE])
  · rw [hdrop4]
    rfl
  · rw [hdrop5, List.take_left' h8t]
    exact decodeBE_packBE_of_lt (by exact_mod_cast ht)
  · rw [hdrop13, List.take_left' h8s]
    exact decodeBE_packBE_of_lt (by exact_mod_cast hs)

/-- Claim C1: for a well-formed unreliable transfer request of size `S`
(a decoded `!Q` field, hence below `2 ^ 64`), the server's handler sends
exactly `S / 1024` payload datagrams — also when `S / 1024 = 0`, where the
remainder bytes are silently truncated and nothing is sent — and the
`i`-th datagram sent is exactly 1024 bytes, carries the cookie, the
payload type, `total_segments = S / 1024` and `segment_index = i` in its
21-byte header, and is padded to the segment size with filler — there is
no final partial segment. -/
theorem handle_udp_client_segments (S : Nat) (hS : S < 2 ^ 64) :
    (handle_udp_client S).length = S / 1024 ∧
    ∀ i, i < S / 1024 →
      ((handle_udp_client S).getD i []).length = 1024 ∧
      decodeBE (((handle_udp_client S).getD i []).take 4) = MAGIC_COOKIE ∧
      decodeBE ((((handle_udp_client S).getD i []).drop 4).take 1) = PAYLOAD_MESSAGE_TYPE ∧
      decodeBE ((((handle_udp_client S).getD i []).drop 5).take 8) = S / 1024 ∧
      decodeBE ((((handle_udp_client S).getD i []).drop 13).take 8) = i ∧
      ((handle_udp_client S).getD i []).drop 21 = List.replicate 1003 0x58 := by
  have hB : BUFFER_SIZE = 1024 := rfl
  constructor
  · unfold handle_udp_client
    rw [List.length_map, List.length_range, hB]
  · intro i hi
    have hi' : i < S / BUFFER_SIZE := by rw [hB]; exact hi
    have hget := handle_udp_client_getD hi'
    have htot : S / BUFFER_SIZE < 2 ^ 64 :=
      lt_of_le_of_lt (Nat.div_le_self S BUFFER_SIZE) hS
    have hidx : i < 2 ^ 64 := lt_trans hi' htot
    have hfields := payload_datagram_fields htot hidx
    rw [hget, hB] at *
    exact ⟨payload_datagram_length _ _, hfields.1, hfields.2.1,
      hfields.2.2.1, hfields.2.2.2.1, hfields.2.2.2.2⟩

/-- Witness for C1: the server's response to a request for 2048 bytes —
exactly two datagrams are sent — evaluated at the second datagram. -/
theorem handle_udp_client_segments_witness :
    2048 < 2 ^ 64 ∧
    (handle_udp_client 2048).length = 2048 / 1024 ∧
    1 < 2048 / 1024 ∧
    (((handle_udp_client 2048).getD 1 []).length = 1024 ∧
     decodeBE (((handle_udp_client 2048).getD 1 []).take 4) = MAGIC_COOKIE ∧
     decodeBE ((((handle_udp_client 2048).getD 1 []).drop 4).take 1) = PAYLOAD_MESSAGE_TYPE ∧
     decodeBE ((((handle_udp_client 2048).getD 1 []).drop 5).take 8) = 2048 / 1024 ∧
     decodeBE ((((handle_udp_client 2048).getD 1 []).drop 13).take 8) = 1 ∧
     ((handle_udp_client 2048).getD 1 []).drop 21 = List.replicate 1003 0x58) :=
  ⟨by norm_num,
    (handle_udp_client_segments 2048 (by norm_num)).1,
    by norm_num,
    (handle_udp_client_segments 2048 (by norm_num)).2 1 (by norm_num)⟩

/-! ## Unreliable client accounting

`udp_transfer` (Client.py) counts, for each received datagram `data`,
`received_segments += 1` and `total_received += len(data) - 20` whenever
`len(data) >= 20`; after the window it computes
`success_rate = (received_segments / total_segments) * 100` when
`total_segments = file_size // BUFFER_SIZE` is positive, else `0`. -/

/-- One iteration of the client's `udp_transfer` receive loop on one
datagram: the updated `(received_segments, total_received)` pair. -/
def udp_transfer_step (data : List Nat) (received_segments total_received : Nat) :
    Nat × Nat :=
  if 20 ≤ data.length then
    (received_segments + 1, total_received + (data.length - 20))
  else
    (received_segments, total_received)

/-- The `(received_segments, total_received)` counters after the client
has processed a whole sequence of datagram arrivals. -/
def udp_transfer_counts (arrivals : List (List Nat)) : Nat × Nat :=
  arrivals.foldl (fun st data => udp_transfer_step data st.1 st.2) (0, 0)

/-- The success rate the client computes after the observation window. -/
def success_rate (file_size : Nat) (arrivals : List (List Nat)) : ℚ :=
  if 0 < file_size / BUFFER_SIZE then
    (((udp_transfer_counts arrivals).1 : ℚ) / (file_size / BUFFER_SIZE : Nat)) * 100
  else 0

/-- Counterexample for C2: for a 1024-byte request (one expected segment),
two counted arrivals — duplicates are counted once per arrival — give a
success rate of 200, outside [0, 100]. -/
theorem success_rate_exceeds_100 :
    success_rate 1024 [List.replicate 20 0, List.replicate 20 0] = 200 ∧
    ¬ success_rate 1024 [List.replicate 20 0, List.replicate 20 0] ≤ 100 := by
  have h : success_rate 1024 [List.replicate 20 0, List.replicate 20 0] = 200 := by
    unfold success_rate udp_transfer_counts udp_transfer_step BUFFER_SIZE
    norm_num
  exact ⟨h, by rw [h]; norm_num⟩

/-- Claim C2 (amended): for every requested size and every arrival
sequence the success rate is non-negative, and it equals 0 whenever
`total_segments = 0` (the guarded else-branch, whatever arrivals were
counted); it is at most 100 whenever the number of counted arrivals does
not exceed `total_segments`, but with duplicated arrivals (each counted
once per arrival) it can exceed 100. -/
theorem success_rate_bounds (file_size : Nat) (arrivals : List (List Nat)) :
    0 ≤ success_rate file_size arrivals ∧
    (file_size / 1024 = 0 → success_rate file_size arrivals = 0) ∧
    ((udp_transfer_counts arrivals).1 ≤ file_size / 1024 →
      success_rate file_size arrivals ≤ 100) := by
  have hB : BUFFER_SIZE = 1024 := rfl
  unfold success_rate
  rw [hB]
  by_cases hpos : 0 < file_size / 1024
  · rw [if_pos hpos]
    refine ⟨by positivity,
      fun h0 => absurd hpos (by rw [h0]; exact lt_irrefl 0), fun hcount => ?_⟩
    have hq : ((udp_transfer_counts arrivals).1 : ℚ) / (file_size / 1024 : Nat) ≤ 1 := by
      rw [div_le_one (by exact_mod_cast hpos)]
      exact_mod_cast hcount
    calc ((udp_transfer_counts arrivals).1 : ℚ) / (file_size / 1024 : Nat) * 100
        ≤ 1 * 100 := by
          exact mul_le_mul_of_nonneg_right hq (by norm_num)
      _ = 100 := by norm_num
  · rw [if_neg hpos]
    norm_num

/-- Witness for C2 (amended): a transfer of 2048 bytes with one counted
arrival stays within the bounds, and a transfer of 0 bytes — zero expected
segments — reports rate 0 even though one arrival was counted. -/
theorem success_rate_bounds_witness :
    0 ≤ success_rate 2048 [List.replicate 20 0] ∧
    ((0 : Nat) / 1024 = 0 ∧ success_rate 0 [List.replicate 20 0] = 0) ∧
    ((udp_transfer_counts [List.replicate 20 0]).1 ≤ 2048 / 1024 ∧
     success_rate 2048 [List.replicate 20 0] ≤ 100) :=
  ⟨(success_rate_bounds 2048 [List.replicate 20 0]).1,
   ⟨by norm_num, (success_rate_bounds 0 [List.replicate 20 0]).2.1 (by norm_num)⟩,
   ⟨by decide, (success_rate_bounds 2048 [List.replicate 20 0]).2.2 (by decide)⟩⟩

/-- Claim C3 (code bug): the wire format's payload header — as packed by
the server — is 21 bytes, so a full 1024-byte segment carries 1003
payload bytes; but the client's accounting subtracts only 20 bytes, so a
full 1024-byte segment is counted as 1004 bytes, and the acceptance
threshold is 20 rather than 21. -/
theorem udp_header_off_by_one :
    (payload_header 1 0).length = 21 ∧
    (payload_datagram 1 0).length = 1024 ∧
    udp_transfer_step (payload_datagram 1 0) 0 0 = (1, 1004) ∧
    (payload_datagram 1 0).length - (payload_header 1 0).length = 1003 ∧
    (1004 : Nat) ≠ 1003 := by
  have hh := payload_header_length 1 0
  have hd := payload_datagram_length 1 0
  refine ⟨hh, hd, ?_, by rw [hh, hd], by norm_num⟩
  unfold udp_transfer_step
  rw [hd]
  norm_num

/-- Counterexample for C7: a 20-byte all-zero datagram has the wrong
cookie (0, not `MAGIC_COOKIE`), yet the client's payload loop counts it as
a received segment — no cookie or type check is performed. -/
theorem udp_transfer_counts_wrong_magic :
    decodeBE ((List.replicate 20 0).take 4) = 0 ∧
    (0 : Nat) ≠ MAGIC_COOKIE ∧
    udp_transfer_step (List.replicate 20 0) 0 0 = (1, 0) := by
  refine ⟨by decide, by decide, ?_⟩
  unfold udp_transfer_step
  norm_num

/-- Claim C7 (amended): the unreliable client's payload loop validates
only the length: every datagram of at least 20 bytes is counted as a
received segment and contributes `length - 20` bytes, regardless of its
cookie or type; only datagrams shorter than 20 bytes contribute nothing. -/
theorem udp_transfer_step_length_only (data : List Nat) (r t : Nat) :
    (20 ≤ data.length →
      udp_transfer_step data r t = (r + 1, t + (data.length - 20))) ∧
    (data.length < 20 → udp_transfer_step data r t = (r, t)) := by
  constructor
  · intro h
    unfold udp_transfer_step
    rw [if_pos h]
  · intro h
    unfold udp_transfer_step
    rw [if_neg (by omega)]

/-- Witness for C7 (amended): a 25-byte datagram is counted and adds 5
bytes; a 19-byte datagram is ignored. -/
theorem udp_transfer_step_length_only_witness :
    (20 ≤ (List.replicate 25 7).length ∧
      udp_transfer_step (List.replicate 25 7) 0 0 = (0 + 1, 0 + ((List.replicate 25 7).length - 20))) ∧
    ((List.replicate 19 7).length < 20 ∧
      udp_transfer_step (List.replicate 19 7) 3 4 = (3, 4)) :=
  ⟨⟨by decide, (udp_transfer_step_length_only (List.replicate 25 7) 0 0).1 (by decide)⟩,
   ⟨by decide, (udp_transfer_step_length_only (List.replicate 19 7) 3 4).2 (by decide)⟩⟩

/-! ## Reliable transfer path (client side)

`tcp_transfer` (Client.py) loops `while received < file_size: data =
tcp_socket.recv(BUFFER_SIZE); received += len(data)` and then computes
`speed = (received / (end_time - start_time)) * 8` with no guard on the
elapsed time; a zero elapsed time raises `ZeroDivisionError`, caught by
the surrounding handler.  The stream is modelled as the list of the
lengths of successive `recv` results; an exhausted list while the target
is unmet models a receive that blocks forever (`none`). -/

/-- The client's reliable receive loop: consume reads while `received <
file_size`; `some received` when the loop exits, `none` when the modelled
stream has no further reads to offer while the target is unmet. -/
def tcp_recv_loop (file_size : Nat) : List Nat → Nat → Option Nat
  | [], received =>
    if received < file_size then none else some received
  | r :: rs, received =>
    if received < file_size then tcp_recv_loop file_size rs (received + r)
    else some received

/-- The client's reliable throughput computation `(received / elapsed) * 8`:
a plain float division with no guard, so a zero elapsed time takes the
`ZeroDivisionError` path. -/
def tcp_transfer_speed (received : Nat) (elapsed : ℚ) : Except Unit ℚ :=
  if elapsed = 0 then Except.error ()
  else Except.ok ((received : ℚ) / elapsed * 8)

theorem tcp_recv_loop_ge (file_size : Nat) :
    ∀ (reads : List Nat) (received r : Nat),
      tcp_recv_loop file_size reads received = some r → file_size ≤ r := by
  intro reads
  induction reads with
  | nil =>
    intro received r h
    unfold tcp_recv_loop at h
    by_cases hlt : received < file_size
    · rw [if_pos hlt] at h
      exact Option.noConfusion h
    · rw [if_neg hlt] at h
      rw [← Option.some_inj.mp h]
      omega
  | cons x rs ih =>
    intro received r h
    unfold tcp_recv_loop at h
    by_cases hlt : received < file_size
    · rw [if_pos hlt] at h
      exact ih (received + x) r h
    · rw [if_neg hlt] at h
      rw [← Option.some_inj.mp h]
      omega

theorem tcp_recv_loop_none (file_size : Nat) :
    ∀ (reads : List Nat) (received : Nat),
      received + reads.sum < file_size →
      tcp_recv_loop file_size reads received = none := by
  intro reads
  induction reads with
  | nil =>
    intro received h
    unfold tcp_recv_loop
    rw [if_pos (by simpa using h)]
  | cons x rs ih =>
    intro received h
    rw [List.sum_cons] at h
    unfold tcp_recv_loop
    rw [if_pos (by omega)]
    exact ih (received + x) (by omega)

/-- Claim C8: whenever the reliable client's receive loop completes, the
cumulative received byte count is at least the requested `file_size`; and
for `file_size = 0` the loop completes immediately with 0 bytes, whatever
the stream offers. -/
theorem tcp_transfer_received_ge (file_size : Nat) (reads : List Nat) (r : Nat) :
    (tcp_recv_loop file_size reads 0 = some r → file_size ≤ r) ∧
    tcp_recv_loop 0 reads 0 = some 0 := by
  constructor
  · exact tcp_recv_loop_ge file_size reads 0 r
  · cases reads with
    | nil => rfl
    | cons x rs => rfl

/-- Witness for C8: a 1024-byte request served by one full read completes
with exactly 1024 bytes, at least the requested size. -/
theorem tcp_transfer_received_ge_witness :
    tcp_recv_loop 1024 [1024] 0 = some 1024 ∧ 1024 ≤ 1024 ∧
    tcp_recv_loop 0 [1024] 0 = some 0 := by
  have h : tcp_recv_loop 1024 [1024] 0 = some 1024 := by decide
  exact ⟨h, (tcp_transfer_received_ge 1024 [1024] 1024).1 h,
    (tcp_transfer_received_ge 1024 [1024] 1024).2⟩

/-- Claim C9: a zero-length read (the peer closed the connection) makes no
progress in the reliable receive loop, and for any positive `file_size`,
if the stream delivers fewer than `file_size` bytes in total then the loop
never exits, no matter how many zero-length reads follow — termination
requires the stream to supply at least `file_size` bytes. -/
theorem tcp_recv_loop_starves (file_size n received : Nat) (reads : List Nat)
    (hpos : 0 < file_size) (hsum : reads.sum < file_size) :
    tcp_recv_loop file_size (reads ++ List.replicate n 0) 0 = none ∧
    tcp_recv_loop file_size (0 :: reads) received =
      tcp_recv_loop file_size reads received := by
  constructor
  · apply tcp_recv_loop_none
    have hz : (List.replicate n 0).sum = 0 := by
      simp [List.sum_replicate]
    rw [List.sum_append, hz]
    omega
  · by_cases hlt : received < file_size
    · show (if received < file_size then
        tcp_recv_loop file_size reads (received + 0) else some received) = _
      rw [if_pos hlt, Nat.add_zero]
    · show (if received < file_size then
        tcp_recv_loop file_size reads (received + 0) else some received) = _
      rw [if_neg hlt]
      cases reads with
      | nil =>
        show _ = if received < file_size then none else some received
        rw [if_neg hlt]
      | cons x rs =>
        show _ = if received < file_size then
          tcp_recv_loop file_size rs (received + x) else some received
        rw [if_neg hlt]

/-- Witness for C9: a 5-byte request over a stream that delivers 3 bytes
and then only empty reads never completes, and a leading empty read
changes nothing. -/
theorem tcp_recv_loop_starves_witness :
    0 < 5 ∧ [1, 2].sum < 5 ∧
    (tcp_recv_loop 5 ([1, 2] ++ List.replicate 3 0) 0 = none ∧
     tcp_recv_loop 5 (0 :: [1, 2]) 7 = tcp_recv_loop 5 [1, 2] 7) :=
  ⟨by norm_num, by norm_num,
    tcp_recv_loop_starves 5 3 7 [1, 2] (by norm_num) (by norm_num)⟩

/-- Claim C4 (amended, counterexample side): at a zero elapsed time the
reliable client's unguarded division raises (the `ZeroDivisionError`
path), instead of reporting a guarded value. -/
theorem tcp_transfer_speed_unguarded :
    tcp_transfer_speed 8192 0 = Except.error () := rfl

/-- Claim C4 (amended): the reliable client's throughput division is not
guarded — a zero elapsed time takes the `ZeroDivisionError` path (caught
by the handler, so no throughput is reported) — but whenever the elapsed
time is positive it reports `received / elapsed * 8`, which is finite and
non-negative. -/
theorem tcp_transfer_speed_pos (received : Nat) (elapsed : ℚ)
    (h : 0 < elapsed) :
    tcp_transfer_speed received elapsed =
      Except.ok ((received : ℚ) / elapsed * 8) ∧
    0 ≤ (received : ℚ) / elapsed * 8 := by
  constructor
  · unfold tcp_transfer_speed
    rw [if_neg (ne_of_gt h)]
  · positivity

/-- Witness for C4 (amended): 1024 bytes over 2 time units give a
non-negative reported speed. -/
theorem tcp_transfer_speed_pos_witness :
    0 < (2 : ℚ) ∧
    (tcp_transfer_speed 1024 2 = Except.ok (((1024 : Nat) : ℚ) / 2 * 8) ∧
     0 ≤ ((1024 : Nat) : ℚ) / 2 * 8) :=
  ⟨by norm_num, tcp_transfer_speed_pos 1024 2 (by norm_num)⟩

/-! ## Server bind addresses

`start_tcp_server` binds `('172.20.10.3', TCP_PORT)` and
`start_udp_server` binds `('172.20.10.3', UDP_PORT)`; the client's
discovery listener, by contrast, binds the wildcard address `''`. -/

/-- The address the server's TCP accept socket binds (Server.py). -/
def tcp_bind_address : String := "172.20.10.3"

/-- The address the server's UDP request socket binds (Server.py). -/
def udp_bind_address : String := "172.20.10.3"

/-- The wildcard all-interfaces address, as the client's discovery
listener binds it (Client.py). -/
def wildcard_address : String := ""

/-- Claim C10: both server listening sockets bind the fixed literal
address 172.20.10.3 — the same program constant on every run — and not
the wildcard all-interfaces address. -/
theorem server_bind_addresses :
    tcp_bind_address = "172.20.10.3" ∧
    udp_bind_address = "172.20.10.3" ∧
    tcp_bind_address = udp_bind_address ∧
    tcp_bind_address ≠ wildcard_address ∧
    udp_bind_address ≠ wildcard_address := by
  refine ⟨rfl, rfl, rfl, ?_, ?_⟩ <;> decide

end Network
